import Mathlib

/-!
Verification of the routelit-flask adapter.

Shallow embedding of the repository under src/src/routelit_flask
(request.py, adapter.py, json_encoder.py, utils.py). External
collaborators (Flask, Jinja, the routelit package) are modelled as
abstract data: a Flask request is a record of the accessor results the
adapter reads, a Jinja render is the record of the template name and the
variables passed, and the RouteLit instance is a record of the functions
the adapter calls into. Python None and JSON null are both modelled by
JsonValue.null, matching Python, where they are the same object.
-/

/-- A parsed JSON value, which is also the Python value a Flask request body
parses to. `null` models both JSON null and Python None. -/
inductive JsonValue where
  | null : JsonValue
  | bool (b : Bool) : JsonValue
  | num (n : Int) : JsonValue
  | str (s : String) : JsonValue
  | arr (elems : List JsonValue) : JsonValue
  | obj (entries : List (String × JsonValue)) : JsonValue

/-- Errors raised by Python attribute access inside adapter code. -/
inductive PyError where
  | attributeError (attr : String) : PyError
deriving DecidableEq, Repr

/-- True exactly when the value is a JSON object (a Python dict). -/
def JsonValue.isObj : JsonValue → Bool
  | .obj _ => true
  | _ => false

/-- Python d.get(key) on the parsed JSON body: on a dict it returns the
stored value, or None when the key is absent; on any other value the
attribute access .get raises AttributeError. -/
def JsonValue.dictGet (v : JsonValue) (key : String) : Except PyError JsonValue :=
  match v with
  | .obj entries =>
      Except.ok (match entries.find? (fun p => p.1 == key) with
        | some p => p.2
        | Option.none => JsonValue.null)
  | _ => Except.error (PyError.attributeError "get")

/-- The Flask request object, as the record of the accessor results the
adapter reads from it. `json` is the parsed body, meaningful when
`is_json` is true (Flask raises its own error before adapter code runs
when a declared-JSON body does not parse). `args` models the query-string
MultiDict as an ordered list of key-value pairs. -/
structure FlaskRequest where
  method : String
  headers : List (String × String)
  cookies : List (String × String)
  args : List (String × String)
  path : String
  host : String
  is_json : Bool
  json : JsonValue

/-- Modelled from the spec: the constant COOKIE_SESSION_KEY is imported from
the external routelit package (request.py and adapter.py import it); per the
spec the session cookie is named ROUTELIT_SESSION_ID. -/
def COOKIE_SESSION_KEY : String := "ROUTELIT_SESSION_ID"

/-- State of a FlaskRLRequest instance (request.py): the wrapped Flask
request, the private default session id (a uuid4 string fixed at
construction) and the private ui-event slot. -/
structure FlaskRLRequest where
  request : FlaskRequest
  defaultSessionId : String
  uiEvent : JsonValue

/-- request.py _get_ui_event: when the request is JSON, self.request.json.get
of the key ui_event; otherwise None. -/
def FlaskRLRequest.compute_ui_event (request : FlaskRequest) : Except PyError JsonValue :=
  if request.is_json then request.json.dictGet "ui_event" else Except.ok JsonValue.null

/-- request.py FlaskRLRequest.__init__: stores the request, draws a fresh
uuid4 string (passed here as fresh_uuid) for the default session id, and
eagerly computes the ui event, which can raise. -/
def FlaskRLRequest.make (request : FlaskRequest) (fresh_uuid : String) :
    Except PyError FlaskRLRequest :=
  match FlaskRLRequest.compute_ui_event request with
  | Except.error e => Except.error e
  | Except.ok ev =>
      Except.ok { request := request, defaultSessionId := fresh_uuid, uiEvent := ev }

/-- request.py get_headers. -/
def FlaskRLRequest.get_headers (r : FlaskRLRequest) : List (String × String) :=
  r.request.headers

/-- request.py method property. -/
def FlaskRLRequest.method (r : FlaskRLRequest) : String :=
  r.request.method

/-- request.py is_json. -/
def FlaskRLRequest.is_json (r : FlaskRLRequest) : Bool :=
  r.request.is_json

/-- request.py get_json: the parsed body when the request is JSON, else None. -/
def FlaskRLRequest.get_json (r : FlaskRLRequest) : JsonValue :=
  if r.is_json then r.request.json else JsonValue.null

/-- request.py get_ui_event: returns the stored ui-event slot. -/
def FlaskRLRequest.get_ui_event (r : FlaskRLRequest) : JsonValue :=
  r.uiEvent

/-- request.py clear_event: overwrites the ui-event slot with None. -/
def FlaskRLRequest.clear_event (r : FlaskRLRequest) : FlaskRLRequest :=
  { r with uiEvent := JsonValue.null }

/-- request.py get_query_param: args.get(key). -/
def FlaskRLRequest.get_query_param (r : FlaskRLRequest) (key : String) : Option String :=
  (r.request.args.find? (fun p => p.1 == key)).map (fun p => p.2)

/-- request.py get_query_param_list: args.getlist(key). -/
def FlaskRLRequest.get_query_param_list (r : FlaskRLRequest) (key : String) : List String :=
  (r.request.args.filter (fun p => p.1 == key)).map (fun p => p.2)

/-- request.py get_session_id: cookies.get(COOKIE_SESSION_KEY, default). -/
def FlaskRLRequest.get_session_id (r : FlaskRLRequest) : String :=
  (r.request.cookies.lookup COOKIE_SESSION_KEY).getD r.defaultSessionId

/-- request.py get_pathname. -/
def FlaskRLRequest.get_pathname (r : FlaskRLRequest) : String :=
  r.request.path

/-- request.py get_host. -/
def FlaskRLRequest.get_host (r : FlaskRLRequest) : String :=
  r.request.host

/-! ## The adapter (adapter.py) -/

/-- A cookie-attribute dict as passed to Flask set_cookie. An all-none
record models the empty Python dict. -/
structure CookieConfig where
  secure : Option Bool := Option.none
  samesite : Option String := Option.none
  httponly : Option Bool := Option.none
  max_age : Option Nat := Option.none
deriving DecidableEq, Repr

/-- The empty cookie-attribute dict. -/
def CookieConfig.emptyDict : CookieConfig := {}

/-- Python dict truthiness: an empty dict is falsy. -/
def CookieConfig.isEmptyDict (c : CookieConfig) : Bool :=
  c.secure.isNone && c.samesite.isNone && c.httponly.isNone && c.max_age.isNone

/-- Python x or y where x is an optional cookie dict: None and the empty
dict are falsy and fall through to y. -/
def pyOrCookieConfig (x : Option CookieConfig) (y : CookieConfig) : CookieConfig :=
  match x with
  | some c => if c.isEmptyDict then y else c
  | Option.none => y

/-- Python x or y where x is an optional string: None and the empty string
are falsy and fall through to y. -/
def pyOrString (x : Option String) (y : String) : String :=
  match x with
  | some s => if s = "" then y else s
  | Option.none => y

/-- adapter.py production_cookie_config. -/
def production_cookie_config : CookieConfig :=
  { secure := some true,
    samesite := some "none",
    httponly := some true,
    max_age := some (60 * 60 * 24 * 1) }

/-- Abstract handle for a view function passed through to routelit. -/
abbrev ViewFn := Nat

/-- Abstract handle for the extra *args and **kwargs forwarded verbatim to
routelit. -/
abbrev ExtraArgs := Nat

/-- Abstract handle for the actions value returned by
routelit.handle_post_request and passed to jsonify. -/
abbrev Actions := Nat

/-- Abstract handle for the jsonl generator returned by
routelit.handle_post_request_stream_jsonl. -/
abbrev JsonlStream := Nat

/-- Abstract value of a vite asset manifest returned by the routelit
instance. -/
abbrev ViteAssets := String

/-- Head metadata of a routelit response. -/
structure RLHead where
  title : String
  description : String

/-- The routelit response returned by handle_get_request, as the record of
what the adapter reads from it. -/
structure RLResponse where
  get_str_json_elements : String
  head : RLHead

/-- An asset target dict from the external routelit package. -/
structure AssetTarget where
  package_name : String
  path : String

/-- The builder class exposed by the routelit instance, as the record of
the one classmethod result the adapter reads. -/
structure BuilderClass where
  get_client_resource_paths : List AssetTarget

/-- The external RouteLit instance, as the record of the functions and
values the adapter calls into. -/
structure RouteLit where
  handle_get_request : ViewFn → FlaskRLRequest → ExtraArgs → RLResponse
  handle_post_request : ViewFn → FlaskRLRequest → Option Bool → ExtraArgs → Actions
  handle_post_request_stream_jsonl : ViewFn → FlaskRLRequest → Option Bool → ExtraArgs → JsonlStream
  get_builder_class : BuilderClass
  default_client_assets : ViteAssets
  client_assets : ViteAssets

/-- Abstraction of str(importlib.resources.files(package).joinpath(path)):
the filesystem location of a resource inside an installed package. -/
def resource_files_path (package_name path : String) : String :=
  package_name ++ ":" ++ path

/-- utils.py get_default_static_path. -/
def get_default_static_path : String :=
  resource_files_path "routelit" "static"

/-- utils.py get_default_template_path. -/
def get_default_template_path : String :=
  resource_files_path "routelit" "templates"

/-- The adapter instance: the fields __init__ stores. -/
structure RouteLitFlaskAdapter where
  routelit : RouteLit
  static_path : String
  template_path : String
  run_mode : String
  local_frontend_server : Option String
  local_components_server : Option String
  cookie_config : CookieConfig

/-- adapter.py RouteLitFlaskAdapter.__init__. The cookie_config line is
translated with Python operator precedence, which parses
x or y if cond else z as (x or y) if cond else z: in any run mode other
than prod the stored cookie config is the empty dict, whatever was
supplied. -/
def RouteLitFlaskAdapter.init (routelit : RouteLit) (static_path : Option String)
    (template_path : String) (run_mode : String)
    (local_frontend_server local_components_server : Option String)
    (cookie_config : Option CookieConfig) : RouteLitFlaskAdapter :=
  { routelit := routelit,
    static_path := pyOrString static_path get_default_static_path,
    template_path := template_path,
    run_mode := run_mode,
    local_frontend_server := local_frontend_server,
    local_components_server := local_components_server,
    cookie_config :=
      if run_mode = "prod" then pyOrCookieConfig cookie_config production_cookie_config
      else CookieConfig.emptyDict }

/-! ## Flask response and app models -/

/-- The arguments of the render_template call in _handle_get_request: the
template name and exactly the variables passed to Jinja. -/
structure TemplateRender where
  template_name : String
  ROUTELIT_DATA : String
  PAGE_TITLE : String
  PAGE_DESCRIPTION : String
  RUN_MODE : String
  LOCAL_FRONTEND_SERVER : Option String
  LOCAL_COMPONENTS_SERVER : Option String
  default_vite_assets : ViteAssets
  vite_assets : ViteAssets

/-- The body a Flask response carries: a rendered template page, a
jsonify-serialized actions value, or a streamed generator. -/
inductive ResponseBody where
  | rendered (page : TemplateRender) : ResponseBody
  | jsonified (actions : Actions) : ResponseBody
  | streamed (gen : JsonlStream) : ResponseBody

/-- One set_cookie call recorded on a response. -/
structure SetCookie where
  name : String
  value : String
  config : CookieConfig

/-- A Flask response: body, headers and the set_cookie calls applied. -/
structure FlaskResponse where
  body : ResponseBody
  headers : List (String × String)
  cookies : List SetCookie

/-- Assignment resp.headers[key] = value: replace an existing entry or
append a new one. -/
def headers_set (hs : List (String × String)) (key value : String) :
    List (String × String) :=
  if hs.any (fun p => p.1 == key) then
    hs.map (fun p => if p.1 == key then (key, value) else p)
  else hs ++ [(key, value)]

/-- Lookup of a response header. -/
def headers_get (hs : List (String × String)) (key : String) : Option String :=
  (hs.find? (fun p => p.1 == key)).map (fun p => p.2)

/-- Flask make_response on a rendered template string: an HTML response
with no cookies set yet. -/
def make_response (page : TemplateRender) : FlaskResponse :=
  { body := ResponseBody.rendered page,
    headers := [("Content-Type", "text/html; charset=utf-8")],
    cookies := [] }

/-- Flask jsonify on the actions value. -/
def jsonify (actions : Actions) : FlaskResponse :=
  { body := ResponseBody.jsonified actions,
    headers := [("Content-Type", "application/json")],
    cookies := [] }

/-- Flask stream_with_context: wraps the generator in the request context,
leaving the streamed data unchanged. -/
def stream_with_context (gen : JsonlStream) : JsonlStream := gen

/-- response.set_cookie(name, value, **config). -/
def FlaskResponse.set_cookie (resp : FlaskResponse) (name value : String)
    (config : CookieConfig) : FlaskResponse :=
  { resp with cookies := resp.cookies ++ [{ name := name, value := value, config := config }] }

/-- A Jinja loader: a FileSystemLoader, a ChoiceLoader over a list of
loaders, or any other loader object (including None). -/
inductive JinjaLoader where
  | fileSystem (path : String) : JinjaLoader
  | choice (loaders : List JinjaLoader) : JinjaLoader
  | otherLoader (id : Nat) : JinjaLoader

/-- The json provider class configured on a Flask app. -/
inductive JsonProviderClass where
  | flaskDefault : JsonProviderClass
  | customProvider : JsonProviderClass
deriving DecidableEq, Repr

/-- One registered Flask URL rule: the rule string, the endpoint name and
the directory the view serves files from. -/
structure UrlRule where
  rule : String
  endpoint : String
  serve_directory : String

/-- The mutable Flask app state the adapter configures. -/
structure FlaskApp where
  url_rules : List UrlRule
  jinja_loader : JinjaLoader
  json_provider_class : JsonProviderClass

/-- adapter.py configure_static_assets: registers the rule
/routelit/{package_name}/<path:filename> serving from the package
resource directory of the asset target. -/
def RouteLitFlaskAdapter.configure_static_assets (flask_app : FlaskApp)
    (asset_target : AssetTarget) : FlaskApp :=
  let assets_path := resource_files_path asset_target.package_name asset_target.path
  { flask_app with url_rules := flask_app.url_rules ++
      [{ rule := "/routelit/" ++ asset_target.package_name ++ "/<path:filename>",
         endpoint := "assets_static_" ++ asset_target.package_name,
         serve_directory := assets_path }] }

/-- adapter.py configure: sets the json provider class, registers one
static rule per client resource path, registers the
/routelit/assets/<path:filename> rule serving static_path/assets, appends
to or wraps the Jinja loader, and returns self. -/
def RouteLitFlaskAdapter.configure (a : RouteLitFlaskAdapter) (flask_app : FlaskApp) :
    FlaskApp × RouteLitFlaskAdapter :=
  let app1 : FlaskApp := { flask_app with json_provider_class := JsonProviderClass.customProvider }
  let app2 : FlaskApp := a.routelit.get_builder_class.get_client_resource_paths.foldl
      RouteLitFlaskAdapter.configure_static_assets app1
  let assets_path := a.static_path ++ "/assets"
  let app3 : FlaskApp := { app2 with url_rules := app2.url_rules ++
      [{ rule := "/routelit/assets/<path:filename>",
         endpoint := "routelit_assets_static",
         serve_directory := assets_path }] }
  let app4 : FlaskApp := { app3 with jinja_loader :=
      match app3.jinja_loader with
      | JinjaLoader.choice ls =>
          JinjaLoader.choice (ls ++ [JinjaLoader.fileSystem a.template_path])
      | l => JinjaLoader.choice [l, JinjaLoader.fileSystem a.template_path] }
  (app4, a)

/-- adapter.py _handle_get_request: calls routelit.handle_get_request,
renders index.html with the listed variables, and sets the session cookie
with the stored cookie config. -/
def RouteLitFlaskAdapter.handle_get_request (a : RouteLitFlaskAdapter)
    (view_fn : ViewFn) (request : FlaskRLRequest) (kwargs : ExtraArgs) : FlaskResponse :=
  let rl_response := a.routelit.handle_get_request view_fn request kwargs
  let response := make_response
    { template_name := "index.html",
      ROUTELIT_DATA := rl_response.get_str_json_elements,
      PAGE_TITLE := rl_response.head.title,
      PAGE_DESCRIPTION := rl_response.head.description,
      RUN_MODE := a.run_mode,
      LOCAL_FRONTEND_SERVER := a.local_frontend_server,
      LOCAL_COMPONENTS_SERVER := a.local_components_server,
      default_vite_assets := a.routelit.default_client_assets,
      vite_assets := a.routelit.client_assets }
  response.set_cookie COOKIE_SESSION_KEY request.get_session_id a.cookie_config

/-- adapter.py response: wraps the current Flask request (which can raise),
then dispatches on the method: POST goes to jsonify of
handle_post_request, anything else to the GET handler. -/
def RouteLitFlaskAdapter.response (a : RouteLitFlaskAdapter) (view_fn : ViewFn)
    (should_inject_builder : Option Bool) (args : ExtraArgs)
    (flask_request : FlaskRequest) (fresh_uuid : String) :
    Except PyError FlaskResponse :=
  match FlaskRLRequest.make flask_request fresh_uuid with
  | Except.error e => Except.error e
  | Except.ok req =>
      if req.method = "POST" then
        Except.ok (jsonify (a.routelit.handle_post_request view_fn req should_inject_builder args))
      else
        Except.ok (a.handle_get_request view_fn req args)

/-- adapter.py stream_response: POST builds a streaming response with
mimetype text/event-stream, then overwrites the Content-Type header with
application/jsonlines; anything else goes to the GET handler. -/
def RouteLitFlaskAdapter.stream_response (a : RouteLitFlaskAdapter) (view_fn : ViewFn)
    (should_inject_builder : Option Bool) (args : ExtraArgs)
    (flask_request : FlaskRequest) (fresh_uuid : String) :
    Except PyError FlaskResponse :=
  match FlaskRLRequest.make flask_request fresh_uuid with
  | Except.error e => Except.error e
  | Except.ok req =>
      if req.method = "POST" then
        let resp : FlaskResponse :=
          { body := ResponseBody.streamed (stream_with_context
              (a.routelit.handle_post_request_stream_jsonl view_fn req should_inject_builder args)),
            headers := [("Content-Type", "text/event-stream")],
            cookies := [] }
        Except.ok ({ resp with
          headers := headers_set resp.headers "Content-Type" "application/jsonlines" } : FlaskResponse)
      else
        Except.ok (a.handle_get_request view_fn req args)

/-! ## The custom JSON provider (json_encoder.py) -/

/-- A Python runtime value as seen by the serializer: None, primitives,
containers, an object carrying a __dict__ of attributes, or an object
without __dict__. -/
inductive PyValue where
  | none : PyValue
  | bool (b : Bool) : PyValue
  | int (n : Int) : PyValue
  | str (s : String) : PyValue
  | list (elems : List PyValue) : PyValue
  | dict (entries : List (String × PyValue)) : PyValue
  | objWithDict (attrs : List (String × PyValue)) : PyValue
  | noDictObj (id : Nat) : PyValue

/-- True exactly for Python None, matching the test v is not None. -/
def PyValue.isNone : PyValue → Bool
  | .none => true
  | _ => false

/-- The value bound to the default keyword of json.dumps: either the
providers own _default method or a caller-supplied hook. -/
inductive DefaultHookTag where
  | providerDefault : DefaultHookTag
  | supplied (id : Nat) : DefaultHookTag
deriving DecidableEq, Repr

/-- The **kwargs dict handed to CustomJSONProvider.dumps: the two keys the
method touches, plus all other entries passed through verbatim. -/
structure DumpsKwargs where
  skipkeys : Option Bool := Option.none
  defaultHook : Option DefaultHookTag := Option.none
  others : List (String × Nat) := []
deriving DecidableEq, Repr

/-- The json.dumps call CustomJSONProvider.dumps ends in: the object and
the final keyword arguments. -/
structure JsonDumpsCall where
  obj : PyValue
  skipkeys : Option Bool
  defaultHook : Option DefaultHookTag
  others : List (String × Nat)

/-- json_encoder.py CustomJSONProvider.dumps: kwargs.setdefault of
skipkeys to True and of default to self._default, then json.dumps. -/
def CustomJSONProvider.dumps (obj : PyValue) (kwargs : DumpsKwargs) : JsonDumpsCall :=
  let kwargs1 : DumpsKwargs := { kwargs with skipkeys := some (kwargs.skipkeys.getD true) }
  let kwargs2 : DumpsKwargs :=
    { kwargs1 with defaultHook := some (kwargs1.defaultHook.getD DefaultHookTag.providerDefault) }
  { obj := obj,
    skipkeys := kwargs2.skipkeys,
    defaultHook := kwargs2.defaultHook,
    others := kwargs2.others }

/-- json_encoder.py CustomJSONProvider._default: an object with a __dict__
maps to the dict of its attributes whose values are not None; any other
value falls to super()._default, an attribute the JSONProvider base class
does not define, so the call raises AttributeError. -/
def CustomJSONProvider.default_hook (obj : PyValue) : Except PyError PyValue :=
  match obj with
  | PyValue.objWithDict attrs =>
      Except.ok (PyValue.dict (attrs.filter (fun p => !p.2.isNone)))
  | _ => Except.error (PyError.attributeError "_default")

/-! ## Concrete fixtures for witnesses and counterexamples -/

/-- A trivial concrete RouteLit instance. -/
def rl0 : RouteLit :=
  { handle_get_request := fun _ _ _ =>
      { get_str_json_elements := "[]", head := { title := "t", description := "d" } },
    handle_post_request := fun _ _ _ _ => 0,
    handle_post_request_stream_jsonl := fun _ _ _ _ => 0,
    get_builder_class := { get_client_resource_paths := [] },
    default_client_assets := "dva",
    client_assets := "va" }

/-- A concrete prod-mode adapter over rl0. -/
def a0 : RouteLitFlaskAdapter :=
  RouteLitFlaskAdapter.init rl0 Option.none "tpl" "prod" Option.none Option.none Option.none

/-- A concrete non-default cookie config, as in the repository tests. -/
def custom_cookie_config : CookieConfig :=
  { secure := some false,
    samesite := some "lax",
    httponly := some false,
    max_age := some 3600 }

/-- A concrete POST request whose JSON body is an object holding a
ui_event key. -/
def fr_post : FlaskRequest :=
  { method := "POST", headers := [], cookies := [], args := [],
    path := "/", host := "example.com",
    is_json := true, json := JsonValue.obj [("ui_event", JsonValue.str "click")] }

/-- The FlaskRLRequest that wrapping fr_post with uuid u0 yields. -/
def req_post : FlaskRLRequest :=
  { request := fr_post, defaultSessionId := "u0", uiEvent := JsonValue.str "click" }

/-- A concrete non-JSON GET request carrying a session cookie. -/
def fr_get : FlaskRequest :=
  { method := "GET", headers := [], cookies := [("ROUTELIT_SESSION_ID", "sid0")],
    args := [], path := "/", host := "example.com",
    is_json := false, json := JsonValue.null }

/-- The FlaskRLRequest that wrapping fr_get with uuid u1 yields. -/
def req_get : FlaskRLRequest :=
  { request := fr_get, defaultSessionId := "u1", uiEvent := JsonValue.null }

/-- A concrete request declared as JSON whose body parses to null: the
input on which FlaskRLRequest construction raises. -/
def fr_null_body : FlaskRequest :=
  { method := "POST", headers := [], cookies := [], args := [],
    path := "/", host := "example.com",
    is_json := true, json := JsonValue.null }

/-- A concrete Flask app whose Jinja loader is not a ChoiceLoader. -/
def app_plain : FlaskApp :=
  { url_rules := [],
    jinja_loader := JinjaLoader.otherLoader 0,
    json_provider_class := JsonProviderClass.flaskDefault }

/-! ## Helper lemmas -/

/-- A successful FlaskRLRequest construction stores the wrapped request and
the fresh uuid unchanged. -/
theorem FlaskRLRequest.make_ok (fr : FlaskRequest) (u : String) (r : FlaskRLRequest)
    (h : FlaskRLRequest.make fr u = Except.ok r) :
    r.request = fr ∧ r.defaultSessionId = u := by
  unfold FlaskRLRequest.make at h
  cases hc : FlaskRLRequest.compute_ui_event fr with
  | error e => rw [hc] at h; cases h
  | ok ev =>
      rw [hc] at h
      injection h with h
      subst h
      exact ⟨rfl, rfl⟩

/-- Folding configure_static_assets appends exactly one rule per asset
target to the url rule list. -/
theorem foldl_static_assets_url_rules (ts : List AssetTarget) (app : FlaskApp) :
    (ts.foldl RouteLitFlaskAdapter.configure_static_assets app).url_rules =
      app.url_rules ++ ts.map (fun t =>
        { rule := "/routelit/" ++ t.package_name ++ "/<path:filename>",
          endpoint := "assets_static_" ++ t.package_name,
          serve_directory := resource_files_path t.package_name t.path }) := by
  induction ts generalizing app with
  | nil => simp
  | cons t ts ih =>
      simp only [List.foldl_cons, List.map_cons, ih,
        RouteLitFlaskAdapter.configure_static_assets]
      simp [List.append_assoc]

/-- Folding configure_static_assets leaves the Jinja loader unchanged. -/
theorem foldl_static_assets_jinja (ts : List AssetTarget) (app : FlaskApp) :
    (ts.foldl RouteLitFlaskAdapter.configure_static_assets app).jinja_loader =
      app.jinja_loader := by
  induction ts generalizing app with
  | nil => rfl
  | cons t ts ih =>
      simp only [List.foldl_cons, ih, RouteLitFlaskAdapter.configure_static_assets]

/-! ## Claim theorems -/

/-- Claim C1: for every HTTP GET request, the GET handler returns the
render of template index.html with exactly the variables ROUTELIT_DATA,
PAGE_TITLE, PAGE_DESCRIPTION (from the routelit response), RUN_MODE,
LOCAL_FRONTEND_SERVER, LOCAL_COMPONENTS_SERVER (the adapter fields),
default_vite_assets and vite_assets (from the routelit instance), and
sets on that response a session cookie whose value is the request session
id. -/
theorem c1_get_handler_renders_and_sets_cookie (a : RouteLitFlaskAdapter)
    (view_fn : ViewFn) (req : FlaskRLRequest) (kwargs : ExtraArgs) :
    (a.handle_get_request view_fn req kwargs).body = ResponseBody.rendered
      { template_name := "index.html",
        ROUTELIT_DATA := (a.routelit.handle_get_request view_fn req kwargs).get_str_json_elements,
        PAGE_TITLE := (a.routelit.handle_get_request view_fn req kwargs).head.title,
        PAGE_DESCRIPTION := (a.routelit.handle_get_request view_fn req kwargs).head.description,
        RUN_MODE := a.run_mode,
        LOCAL_FRONTEND_SERVER := a.local_frontend_server,
        LOCAL_COMPONENTS_SERVER := a.local_components_server,
        default_vite_assets := a.routelit.default_client_assets,
        vite_assets := a.routelit.client_assets }
  ∧ (a.handle_get_request view_fn req kwargs).cookies =
      [{ name := COOKIE_SESSION_KEY, value := req.get_session_id,
         config := a.cookie_config }] :=
  ⟨rfl, rfl⟩

/-- Claim C2 counterexample: in run_mode dev_client a supplied cookie_config
dict is not stored; the adapter stores the empty dict instead, because the
Python conditional in __init__ parses as
(cookie_config or production_cookie_config) if run_mode == "prod" else {}. -/
theorem c2_counterexample :
    (RouteLitFlaskAdapter.init rl0 Option.none "tpl" "dev_client" Option.none Option.none
        (some custom_cookie_config)).cookie_config ≠ custom_cookie_config := by
  decide

/-- Claim C2 (amended): the session cookie is named ROUTELIT_SESSION_ID and
set with the stored cookie config; in run_mode prod a supplied non-empty
cookie_config dict is stored exactly, an omitted cookie_config falls back
to the default production policy, and in every other run mode the stored
config is the empty dict regardless of what was supplied. -/
theorem c2_cookie_config_amended (rl : RouteLit) (sp : Option String) (tp : String)
    (lfs lcs : Option String) :
    (∀ cc : CookieConfig, cc.isEmptyDict = false →
       (RouteLitFlaskAdapter.init rl sp tp "prod" lfs lcs (some cc)).cookie_config = cc)
  ∧ (RouteLitFlaskAdapter.init rl sp tp "prod" lfs lcs Option.none).cookie_config =
      production_cookie_config
  ∧ (∀ cc : CookieConfig, cc.isEmptyDict = true →
       (RouteLitFlaskAdapter.init rl sp tp "prod" lfs lcs (some cc)).cookie_config =
         production_cookie_config)
  ∧ (∀ rm : String, rm ≠ "prod" → ∀ occ : Option CookieConfig,
       (RouteLitFlaskAdapter.init rl sp tp rm lfs lcs occ).cookie_config =
         CookieConfig.emptyDict)
  ∧ (∀ a : RouteLitFlaskAdapter, ∀ vf req kwargs,
       (a.handle_get_request vf req kwargs).cookies =
         [{ name := "ROUTELIT_SESSION_ID", value := req.get_session_id,
            config := a.cookie_config }]) := by
  refine ⟨?_, ?_, ?_, ?_, ?_⟩
  · intro cc h
    simp [RouteLitFlaskAdapter.init, pyOrCookieConfig, h]
  · rfl
  · intro cc h
    simp [RouteLitFlaskAdapter.init, pyOrCookieConfig, h]
  · intro rm h occ
    simp [RouteLitFlaskAdapter.init, h]
  · intro a vf req kwargs
    rfl

/-- Claim C2 witness: the amended statement at concrete inputs. -/
theorem c2_amended_witness :
    custom_cookie_config.isEmptyDict = false
  ∧ (RouteLitFlaskAdapter.init rl0 Option.none "tpl" "prod" Option.none Option.none
        (some custom_cookie_config)).cookie_config = custom_cookie_config
  ∧ CookieConfig.emptyDict.isEmptyDict = true
  ∧ (RouteLitFlaskAdapter.init rl0 Option.none "tpl" "prod" Option.none Option.none
        (some CookieConfig.emptyDict)).cookie_config = production_cookie_config
  ∧ (RouteLitFlaskAdapter.init rl0 Option.none "tpl" "dev_client" Option.none Option.none
        Option.none).cookie_config = CookieConfig.emptyDict :=
  ⟨rfl,
   (c2_cookie_config_amended rl0 Option.none "tpl" Option.none Option.none).1
     custom_cookie_config rfl,
   rfl,
   (c2_cookie_config_amended rl0 Option.none "tpl" Option.none Option.none).2.2.1
     CookieConfig.emptyDict rfl,
   (c2_cookie_config_amended rl0 Option.none "tpl" Option.none Option.none).2.2.2.1
     "dev_client" (by decide) Option.none⟩

/-- Claim C3: response dispatches on the HTTP method: a POST request gets
the jsonify serialization of the actions from handle_post_request, a GET
request gets the rendered page of the GET handler. -/
theorem c3_response_dispatch (a : RouteLitFlaskAdapter) (view_fn : ViewFn)
    (sib : Option Bool) (args : ExtraArgs) (fr : FlaskRequest) (u : String)
    (r : FlaskRLRequest) (h : FlaskRLRequest.make fr u = Except.ok r) :
    (fr.method = "POST" →
       a.response view_fn sib args fr u =
         Except.ok (jsonify (a.routelit.handle_post_request view_fn r sib args)))
  ∧ (fr.method = "GET" →
       a.response view_fn sib args fr u =
         Except.ok (a.handle_get_request view_fn r args)) := by
  have hreq : r.request = fr := (FlaskRLRequest.make_ok fr u r h).1
  have hm : r.method = fr.method := by rw [FlaskRLRequest.method, hreq]
  constructor
  · intro hp
    unfold RouteLitFlaskAdapter.response
    rw [h]
    simp [hm, hp]
  · intro hg
    unfold RouteLitFlaskAdapter.response
    rw [h]
    have hne : ¬(r.method = "POST") := by rw [hm, hg]; decide
    simp [hne]

/-- Claim C3 witness: the POST branch at a concrete request. -/
theorem c3_witness :
    FlaskRLRequest.make fr_post "u0" = Except.ok req_post
  ∧ fr_post.method = "POST"
  ∧ a0.response 0 Option.none 0 fr_post "u0" =
      Except.ok (jsonify (a0.routelit.handle_post_request 0 req_post Option.none 0)) :=
  ⟨rfl, rfl,
   (c3_response_dispatch a0 0 Option.none 0 fr_post "u0" req_post rfl).1 rfl⟩

/-- Claim C4 counterexample: on a request declared as JSON whose body
parses to null, FlaskRLRequest construction raises an AttributeError from
adapter code (request.py calls .get on the body unconditionally), so
construction does not succeed for every request. -/
theorem c4_counterexample :
    FlaskRLRequest.make fr_null_body "u2" =
      Except.error (PyError.attributeError "get") := rfl

/-- Claim C4 (amended): constructing a FlaskRLRequest succeeds when the
request is not JSON (get_ui_event is then None) or when its JSON body is
an object (get_ui_event is then the value under ui_event, None when the
key is absent); when the request is JSON but its body is not an object,
construction raises an AttributeError from the adapter code itself. -/
theorem c4_ui_event_amended (fr : FlaskRequest) (u : String) :
    (fr.is_json = false →
       FlaskRLRequest.make fr u =
         Except.ok { request := fr, defaultSessionId := u, uiEvent := JsonValue.null })
  ∧ (∀ entries, fr.is_json = true → fr.json = JsonValue.obj entries →
       FlaskRLRequest.make fr u = Except.ok
         { request := fr, defaultSessionId := u,
           uiEvent := match entries.find? (fun p => p.1 == "ui_event") with
             | some p => p.2
             | Option.none => JsonValue.null })
  ∧ (fr.is_json = true → fr.json.isObj = false →
       FlaskRLRequest.make fr u = Except.error (PyError.attributeError "get")) := by
  refine ⟨?_, ?_, ?_⟩
  · intro h
    unfold FlaskRLRequest.make FlaskRLRequest.compute_ui_event
    simp [h]
  · intro entries h1 h2
    unfold FlaskRLRequest.make FlaskRLRequest.compute_ui_event JsonValue.dictGet
    rw [h2]
    simp [h1]
  · intro h1 h2
    unfold FlaskRLRequest.make FlaskRLRequest.compute_ui_event
    cases hj : fr.json <;> simp_all [JsonValue.isObj, JsonValue.dictGet]

/-- Claim C4 witness: the amended statement at concrete requests, one
non-JSON and one with an object body carrying a ui_event. -/
theorem c4_amended_witness :
    fr_get.is_json = false
  ∧ FlaskRLRequest.make fr_get "u1" = Except.ok req_get
  ∧ fr_post.is_json = true
  ∧ fr_post.json = JsonValue.obj [("ui_event", JsonValue.str "click")]
  ∧ FlaskRLRequest.make fr_post "u0" = Except.ok req_post
  ∧ req_post.get_ui_event = JsonValue.str "click" :=
  ⟨rfl, (c4_ui_event_amended fr_get "u1").1 rfl, rfl, rfl,
   (c4_ui_event_amended fr_post "u0").2.1 [("ui_event", JsonValue.str "click")] rfl rfl,
   rfl⟩

/-- Claim C5: after configure the Jinja loader is a ChoiceLoader ending in
a FileSystemLoader for the adapter template path: an existing ChoiceLoader
has the new loader appended to its list, preserving every previously
registered loader; any other loader is wrapped together with the new one
in a fresh ChoiceLoader, original first. -/
theorem c5_jinja_loader (a : RouteLitFlaskAdapter) (app : FlaskApp) :
    (∀ ls, app.jinja_loader = JinjaLoader.choice ls →
       ((a.configure app).1).jinja_loader =
         JinjaLoader.choice (ls ++ [JinjaLoader.fileSystem a.template_path]))
  ∧ ((∀ ls, app.jinja_loader ≠ JinjaLoader.choice ls) →
       ((a.configure app).1).jinja_loader =
         JinjaLoader.choice [app.jinja_loader, JinjaLoader.fileSystem a.template_path]) := by
  constructor
  · intro ls hls
    simp [RouteLitFlaskAdapter.configure, foldl_static_assets_jinja, hls]
  · intro hne
    cases happ : app.jinja_loader with
    | fileSystem p =>
        simp [RouteLitFlaskAdapter.configure, foldl_static_assets_jinja, happ]
    | choice ls => exact absurd happ (hne ls)
    | otherLoader i =>
        simp [RouteLitFlaskAdapter.configure, foldl_static_assets_jinja, happ]

/-- Claim C5 witness: configuring an app whose loader is not a
ChoiceLoader wraps it, original first. -/
theorem c5_witness :
    ((a0.configure app_plain).1).jinja_loader =
      JinjaLoader.choice [JinjaLoader.otherLoader 0, JinjaLoader.fileSystem "tpl"] :=
  (c5_jinja_loader a0 app_plain).2 (fun _ h => JinjaLoader.noConfusion h)

/-- Claim C6: stream_response on a POST request returns a streaming
response wrapping the jsonl generator from
handle_post_request_stream_jsonl, with final Content-Type header
application/jsonlines; on a GET request it returns the same rendered page
as the non-streaming handler. -/
theorem c6_stream_dispatch (a : RouteLitFlaskAdapter) (view_fn : ViewFn)
    (sib : Option Bool) (args : ExtraArgs) (fr : FlaskRequest) (u : String)
    (r : FlaskRLRequest) (h : FlaskRLRequest.make fr u = Except.ok r) :
    (fr.method = "POST" →
       ∃ resp, a.stream_response view_fn sib args fr u = Except.ok resp
         ∧ resp.body = ResponseBody.streamed
             (a.routelit.handle_post_request_stream_jsonl view_fn r sib args)
         ∧ headers_get resp.headers "Content-Type" = some "application/jsonlines")
  ∧ (fr.method = "GET" →
       a.stream_response view_fn sib args fr u =
         Except.ok (a.handle_get_request view_fn r args)
       ∧ a.stream_response view_fn sib args fr u = a.response view_fn sib args fr u) := by
  have hreq : r.request = fr := (FlaskRLRequest.make_ok fr u r h).1
  have hm : r.method = fr.method := by rw [FlaskRLRequest.method, hreq]
  constructor
  · intro hp
    unfold RouteLitFlaskAdapter.stream_response
    rw [h]
    simp only [hm, hp, if_pos, stream_with_context]
    exact ⟨_, rfl, rfl, rfl⟩
  · intro hg
    have hne : ¬(r.method = "POST") := by rw [hm, hg]; decide
    constructor
    · unfold RouteLitFlaskAdapter.stream_response
      rw [h]
      simp [hne]
    · unfold RouteLitFlaskAdapter.stream_response RouteLitFlaskAdapter.response
      rw [h]
      simp [hne]

/-- Claim C6 witness: the POST branch at a concrete request. -/
theorem c6_witness :
    FlaskRLRequest.make fr_post "u0" = Except.ok req_post
  ∧ fr_post.method = "POST"
  ∧ (∃ resp, a0.stream_response 0 Option.none 0 fr_post "u0" = Except.ok resp
       ∧ resp.body = ResponseBody.streamed
           (a0.routelit.handle_post_request_stream_jsonl 0 req_post Option.none 0)
       ∧ headers_get resp.headers "Content-Type" = some "application/jsonlines") :=
  ⟨rfl, rfl,
   (c6_stream_dispatch a0 0 Option.none 0 fr_post "u0" req_post rfl).1 rfl⟩

/-- Claim C7: configure registers one rule
/routelit/{package_name}/<path:filename> per asset target from the builder
class client resource paths, then the rule /routelit/assets/<path:filename>
serving static_path/assets, and returns the adapter itself. -/
theorem c7_configure_rules (a : RouteLitFlaskAdapter) (app : FlaskApp) :
    ((a.configure app).1).url_rules =
      app.url_rules
      ++ a.routelit.get_builder_class.get_client_resource_paths.map (fun t =>
          { rule := "/routelit/" ++ t.package_name ++ "/<path:filename>",
            endpoint := "assets_static_" ++ t.package_name,
            serve_directory := resource_files_path t.package_name t.path })
      ++ [{ rule := "/routelit/assets/<path:filename>",
            endpoint := "routelit_assets_static",
            serve_directory := a.static_path ++ "/assets" }]
  ∧ (a.configure app).2 = a := by
  constructor
  · simp [RouteLitFlaskAdapter.configure, foldl_static_assets_url_rules]
  · rfl

/-- Claim C8: dumps passes skipkeys=True and the provider default hook to
json.dumps unless the caller supplied those keywords, forwards all other
keywords unchanged, and the default hook maps an object with a __dict__ to
the dict of exactly its attributes whose values are not None. -/
theorem c8_custom_json_provider (obj : PyValue) (kwargs : DumpsKwargs)
    (attrs : List (String × PyValue)) :
    (CustomJSONProvider.dumps obj kwargs).obj = obj
  ∧ (CustomJSONProvider.dumps obj kwargs).skipkeys = some (kwargs.skipkeys.getD true)
  ∧ (CustomJSONProvider.dumps obj kwargs).defaultHook =
      some (kwargs.defaultHook.getD DefaultHookTag.providerDefault)
  ∧ (CustomJSONProvider.dumps obj kwargs).others = kwargs.others
  ∧ CustomJSONProvider.default_hook (PyValue.objWithDict attrs) =
      Except.ok (PyValue.dict (attrs.filter (fun p => !p.2.isNone))) :=
  ⟨rfl, rfl, rfl, rfl, rfl⟩

/-- Claim C9: get_session_id is a pure function of the construction-time
state: it returns the ROUTELIT_SESSION_ID cookie value when present and
otherwise the default uuid fixed at construction, and the one mutator of
the instance, clear_event, does not change it. -/
theorem c9_session_id_stable (r : FlaskRLRequest) :
    (∀ v, r.request.cookies.lookup COOKIE_SESSION_KEY = some v →
       r.get_session_id = v)
  ∧ (r.request.cookies.lookup COOKIE_SESSION_KEY = Option.none →
       r.get_session_id = r.defaultSessionId)
  ∧ r.clear_event.get_session_id = r.get_session_id
  ∧ (∀ fr u, FlaskRLRequest.make fr u = Except.ok r → r.defaultSessionId = u) := by
  refine ⟨?_, ?_, rfl, ?_⟩
  · intro v h
    unfold FlaskRLRequest.get_session_id
    rw [h]
    rfl
  · intro h
    unfold FlaskRLRequest.get_session_id
    rw [h]
    rfl
  · intro fr u h
    exact (FlaskRLRequest.make_ok fr u r h).2

/-- Claim C9 witness: on a request carrying the session cookie the value
is returned, and after construction the default uuid is the one drawn. -/
theorem c9_witness :
    req_get.request.cookies.lookup COOKIE_SESSION_KEY = some "sid0"
  ∧ req_get.get_session_id = "sid0"
  ∧ req_get.defaultSessionId = "u1" :=
  ⟨rfl, (c9_session_id_stable req_get).1 "sid0" rfl,
   (c9_session_id_stable req_get).2.2.2 fr_get "u1" rfl⟩

/-- Claim C10: after clear_event, get_ui_event returns None and every
other observer of the request returns the value it returned before. -/
theorem c10_clear_event_frame (r : FlaskRLRequest) :
    r.clear_event.get_ui_event = JsonValue.null
  ∧ r.clear_event.get_json = r.get_json
  ∧ r.clear_event.is_json = r.is_json
  ∧ r.clear_event.method = r.method
  ∧ r.clear_event.get_headers = r.get_headers
  ∧ (∀ key, r.clear_event.get_query_param key = r.get_query_param key)
  ∧ (∀ key, r.clear_event.get_query_param_list key = r.get_query_param_list key)
  ∧ r.clear_event.get_session_id = r.get_session_id
  ∧ r.clear_event.get_pathname = r.get_pathname
  ∧ r.clear_event.get_host = r.get_host :=
  ⟨rfl, rfl, rfl, rfl, rfl, fun _ => rfl, fun _ => rfl, rfl, rfl, rfl⟩
